import Mathlib

/-!
Shallow embedding of the fees service's `BillWorkflow` (Go, Temporal SDK)
and proofs of the spec's claims about it.

Modelling conventions:
* Go `float64` amounts are modelled as exact rationals (`ℚ`); the properties
  under consideration compare the workflow's running total (a left fold over
  the line items in order) with the sum of the submitted amounts, so the
  numeric representation plays no role in the comparison.
* `workflow.Now(ctx)` (logical time) is modelled as a `Nat` supplied by the
  environment at each step.
* Activity executions (`UpsertBillActivity`, `SaveLineItemActivity`,
  `UpdateBillOnCloseActivity`) and the recorded-effect id generation
  (`workflow.SideEffect` wrapping `uuid.NewString`) are external calls; their
  outcomes are inputs to each step: a `Bool` for activity success/failure and
  an `Option String` for id generation.
* Signal handlers in Go return nothing to the sender; they only mutate the
  workflow-local `bill` and issue activities.  Each handler is embedded as a
  function returning the new `Bill` together with the list of activity calls
  it issued.
-/

namespace Fees

/-- Status of a bill: the Go constants `BillStatusOpen` / `BillStatusClosed`. -/
inductive BillStatus where
  | Open
  | Closed
deriving DecidableEq, Repr

/-- An individual item on a bill (Go struct `LineItem`). -/
structure LineItem where
  id : String
  description : String
  amount : ℚ
deriving DecidableEq, Repr

/-- A customer bill (Go struct `Bill`).  `createdAt` and `closedAt` are
pointers in Go, hence `Option` here. -/
structure Bill where
  id : String
  customerID : String
  currency : String
  status : BillStatus
  lineItems : List LineItem
  totalAmount : ℚ
  createdAt : Option Nat
  closedAt : Option Nat
deriving DecidableEq, Repr

/-- Payload of the `AddLineItemSignal` (Go struct `AddLineItemSignal`). -/
structure AddLineItemSignal where
  lineItemID : String
  description : String
  amount : ℚ
deriving DecidableEq, Repr

/-- Parameters for starting the workflow (Go struct `BillWorkflowParams`). -/
structure BillWorkflowParams where
  billID : String
  customerID : String
  currency : String
deriving DecidableEq, Repr

/-- Parameters of `SaveLineItemActivity` (Go struct
`SaveLineItemActivityParams`). -/
structure SaveLineItemActivityParams where
  lineItemID : String
  billID : String
  description : String
  amount : ℚ
  createdAt : Nat
deriving DecidableEq, Repr

/-- Parameters of `UpdateBillOnCloseActivity` (Go struct
`UpdateBillOnCloseActivityParams`). -/
structure UpdateBillOnCloseActivityParams where
  billID : String
  status : BillStatus
  totalAmount : ℚ
  closedAt : Nat
deriving DecidableEq, Repr

/-- An activity call issued by a signal handler. -/
inductive Effect where
  | saveLineItem (p : SaveLineItemActivityParams)
  | updateBillOnClose (p : UpdateBillOnCloseActivityParams)
deriving DecidableEq, Repr

/-- The running total recomputed by the workflow: Go's
`for _, item := range bill.LineItems { currentTotal += item.Amount }`
starting from `0.0`. -/
def sumAmounts (items : List LineItem) : ℚ :=
  items.foldl (fun acc item => acc + item.amount) 0

/-- The body of the `AddLineItemSignal` handler in `BillWorkflow`.

`generatedID` is the outcome of `generateID(ctx)` (`none` = the side effect
failed), consulted only when the signal carries no `LineItemID`; `now` is
`workflow.Now(ctx)` at this step; `saveOk` is the outcome of
`SaveLineItemActivity`, which the Go code only logs — it affects neither the
state nor the issued call. -/
def handleAddLineItemSignal (bill : Bill) (signal : AddLineItemSignal)
    (generatedID : Option String) (now : Nat) (saveOk : Bool) :
    Bill × List Effect :=
  if bill.status ≠ BillStatus.Open then
    (bill, [])
  else
    let lineItemID? : Option String :=
      if signal.lineItemID = "" then generatedID else some signal.lineItemID
    match lineItemID? with
    | none => (bill, [])
    | some lineItemID =>
      if bill.lineItems.any (fun item => item.id = lineItemID) then
        (bill, [])
      else
        let newLineItem : LineItem :=
          { id := lineItemID
            description := signal.description
            amount := signal.amount }
        let items := bill.lineItems ++ [newLineItem]
        let currentTotal := sumAmounts items
        ({ bill with lineItems := items, totalAmount := currentTotal },
         [Effect.saveLineItem
            { lineItemID := lineItemID
              billID := bill.id
              description := signal.description
              amount := signal.amount
              createdAt := now }])

/-- The body of the `CloseBillSignal` handler in `BillWorkflow`.

It recomputes the total, issues `UpdateBillOnCloseActivity` (outcome
`updateOk`, only logged), and unconditionally marks the bill closed with the
snapshot time `now`; the Go handler has no status guard of its own. -/
def handleCloseBillSignal (bill : Bill) (now : Nat) (updateOk : Bool) :
    Bill × List Effect :=
  let total := sumAmounts bill.lineItems
  ({ bill with
      status := BillStatus.Closed
      closedAt := some now
      totalAmount := total },
   [Effect.updateBillOnClose
      { billID := bill.id
        status := BillStatus.Closed
        totalAmount := total
        closedAt := now }])

/-- The part of `BillWorkflow` before the signal loop: bill id resolution
(generate when absent, fatal on generation failure), construction of the
initial `Bill`, the `UpsertBillActivity` call (fatal on failure) and query
handler registration (fatal on failure).  `upsertOk` and `queryHandlerOk`
are the outcomes of those two external calls. -/
def initBill (params : BillWorkflowParams) (generatedID : Option String)
    (createdAt : Nat) (upsertOk : Bool) (queryHandlerOk : Bool) :
    Except String Bill :=
  let billID? : Option String :=
    if params.billID = "" then generatedID else some params.billID
  match billID? with
  | none => Except.error "failed to generate BillID"
  | some billID =>
    let bill : Bill :=
      { id := billID
        customerID := params.customerID
        currency := params.currency
        status := BillStatus.Open
        lineItems := []
        totalAmount := 0
        createdAt := some createdAt
        closedAt := none }
    if !upsertOk then
      Except.error "UpsertBillActivity failed"
    else if !queryHandlerOk then
      Except.error "failed to register query handler"
    else
      Except.ok bill

/-- A command delivered to the workflow's selector, bundled with the
environment responses its handler consumes. -/
inductive Cmd where
  | addLineItem (signal : AddLineItemSignal) (generatedID : Option String)
      (now : Nat) (saveOk : Bool)
  | close (now : Nat) (updateOk : Bool)
deriving DecidableEq, Repr

/-- State of the workflow's main loop: `running` while
`bill.Status == BillStatusOpen` keeps the loop alive, `completed` once the
loop has exited and the workflow has returned its result. -/
inductive WorkflowState where
  | running (bill : Bill)
  | completed (bill : Bill)
deriving DecidableEq, Repr

/-- The workflow-local `bill` value in either loop state. -/
def billOf : WorkflowState → Bill
  | WorkflowState.running b => b
  | WorkflowState.completed b => b

/-- One iteration of `BillWorkflow`'s main loop: a completed workflow
processes nothing further; a running one dispatches the command to its
handler and re-checks the loop condition `bill.Status == BillStatusOpen`. -/
def stepCmd (s : WorkflowState) (c : Cmd) : WorkflowState :=
  match s with
  | WorkflowState.completed b => WorkflowState.completed b
  | WorkflowState.running b =>
    let b' :=
      match c with
      | Cmd.addLineItem signal generatedID now saveOk =>
        (handleAddLineItemSignal b signal generatedID now saveOk).1
      | Cmd.close now updateOk =>
        (handleCloseBillSignal b now updateOk).1
    if b'.status = BillStatus.Open then WorkflowState.running b'
    else WorkflowState.completed b'

/-- Process a sequence of delivered commands in order. -/
def processCmds (s : WorkflowState) (cmds : List Cmd) : WorkflowState :=
  cmds.foldl stepCmd s

/-- The workflow's return statement `return bill, workflowErr`: no signal
handler in the source ever sets `workflowErr`, so the error component is
always `nil`. -/
def workflowReturn (s : WorkflowState) : Bill × Option String :=
  (billOf s, none)

/-- The registered `GetBillDetailsQuery` handler: Go's
`func() (*Bill, error) { return bill, nil }`.  The Temporal substrate
serializes the returned value at the query boundary, so the caller receives
a value copy; the handler itself performs no mutation. -/
def getBillDetails (bill : Bill) : Bill × Option String :=
  (bill, none)

/-- Answering a `GetBillDetails` query in state `s`: the query result paired
with the workflow state afterwards. -/
def processQuery (s : WorkflowState) : (Bill × Option String) × WorkflowState :=
  (getBillDetails (billOf s), s)

/-- The full workflow run on a finite list of delivered commands:
initialization (fatal failures propagate to the creator as `Except.error`),
then the signal loop, then the return value. -/
def runBillWorkflow (params : BillWorkflowParams) (generatedID : Option String)
    (createdAt : Nat) (upsertOk : Bool) (queryHandlerOk : Bool)
    (cmds : List Cmd) : Except String (Bill × Option String) :=
  match initBill params generatedID createdAt upsertOk queryHandlerOk with
  | Except.error e => Except.error e
  | Except.ok bill =>
    Except.ok (workflowReturn (processCmds (WorkflowState.running bill) cmds))

/-- The line item the handler constructs from a signal that carries its own
`LineItemID`. -/
def lineItemOfSignal (s : AddLineItemSignal) : LineItem :=
  { id := s.lineItemID, description := s.description, amount := s.amount }

/-- An `AddLineItemSignal` delivery bundled with the environment responses
consumed while handling it. -/
structure AddInput where
  signal : AddLineItemSignal
  generatedID : Option String
  now : Nat
  saveOk : Bool
deriving DecidableEq, Repr

/-- The command corresponding to an `AddInput`. -/
def addCmd (x : AddInput) : Cmd :=
  Cmd.addLineItem x.signal x.generatedID x.now x.saveOk

/-! ## Basic lemmas about the embedding -/

theorem sumAmounts_foldl (l : List LineItem) :
    ∀ a : ℚ, l.foldl (fun acc item => acc + item.amount) a
      = a + (l.map LineItem.amount).sum := by
  induction l with
  | nil => intro a; simp
  | cons x xs ih => intro a; simp [ih, add_assoc]

theorem sumAmounts_eq_sum (l : List LineItem) :
    sumAmounts l = (l.map LineItem.amount).sum := by
  simpa [sumAmounts] using sumAmounts_foldl l 0

theorem processCmds_nil (s : WorkflowState) : processCmds s [] = s := rfl

theorem processCmds_cons (s : WorkflowState) (c : Cmd) (cs : List Cmd) :
    processCmds s (c :: cs) = processCmds (stepCmd s c) cs := rfl

theorem processCmds_append (s : WorkflowState) (l₁ l₂ : List Cmd) :
    processCmds s (l₁ ++ l₂) = processCmds (processCmds s l₁) l₂ := by
  simp [processCmds, List.foldl_append]

theorem stepCmd_completed (b : Bill) (c : Cmd) :
    stepCmd (WorkflowState.completed b) c = WorkflowState.completed b := rfl

theorem processCmds_completed (b : Bill) (cs : List Cmd) :
    processCmds (WorkflowState.completed b) cs = WorkflowState.completed b := by
  induction cs with
  | nil => rfl
  | cons c cs ih => simpa [processCmds_cons, stepCmd_completed] using ih

/-- The `AddLineItemSignal` handler never touches `status`, `closedAt`,
`id`, `customerID`, `currency` or `createdAt`. -/
theorem handleAdd_frame (b : Bill) (sig : AddLineItemSignal)
    (g : Option String) (n : Nat) (ok : Bool) :
    (handleAddLineItemSignal b sig g n ok).1.status = b.status
    ∧ (handleAddLineItemSignal b sig g n ok).1.closedAt = b.closedAt
    ∧ (handleAddLineItemSignal b sig g n ok).1.id = b.id
    ∧ (handleAddLineItemSignal b sig g n ok).1.customerID = b.customerID
    ∧ (handleAddLineItemSignal b sig g n ok).1.currency = b.currency
    ∧ (handleAddLineItemSignal b sig g n ok).1.createdAt = b.createdAt := by
  unfold handleAddLineItemSignal
  by_cases hs : b.status ≠ BillStatus.Open
  · simp [hs]
  · by_cases he : sig.lineItemID = ""
    · cases g with
      | none => simp [hs, he]
      | some gid =>
        by_cases hd : ∃ x ∈ b.lineItems, x.id = gid
        · simp [hs, he, hd]
        · simp [hs, he, hd]
    · by_cases hd : ∃ x ∈ b.lineItems, x.id = sig.lineItemID
      · simp [hs, he, hd]
      · simp [hs, he, hd]

/-- Happy path of the `AddLineItemSignal` handler: open bill, id supplied,
id fresh. -/
theorem handleAdd_fresh (b : Bill) (sig : AddLineItemSignal)
    (g : Option String) (n : Nat) (ok : Bool)
    (hOpen : b.status = BillStatus.Open)
    (hNE : sig.lineItemID ≠ "")
    (hFresh : sig.lineItemID ∉ b.lineItems.map LineItem.id) :
    handleAddLineItemSignal b sig g n ok =
      ({ b with
          lineItems := b.lineItems ++ [lineItemOfSignal sig]
          totalAmount := sumAmounts (b.lineItems ++ [lineItemOfSignal sig]) },
       [Effect.saveLineItem
          { lineItemID := sig.lineItemID
            billID := b.id
            description := sig.description
            amount := sig.amount
            createdAt := n }]) := by
  have hAny : b.lineItems.any (fun item => item.id = sig.lineItemID) = false := by
    rw [List.any_eq_false]
    intro item hmem
    simp only [decide_eq_true_eq]
    intro heq
    exact hFresh (List.mem_map.mpr ⟨item, hmem, heq⟩)
  simp [handleAddLineItemSignal, hOpen, hNE, hAny, lineItemOfSignal]

/-- Loop-state invariant maintained by `BillWorkflow`: while the loop runs the
bill is open and unclosed; once the loop has exited the bill is closed with a
close timestamp. -/
def statusInv : WorkflowState → Prop
  | WorkflowState.running b =>
      b.status = BillStatus.Open ∧ b.closedAt = none
  | WorkflowState.completed b =>
      b.status = BillStatus.Closed ∧ b.closedAt.isSome = true

theorem stepCmd_statusInv (s : WorkflowState) (c : Cmd)
    (h : statusInv s) : statusInv (stepCmd s c) := by
  cases s with
  | completed b => exact h
  | running b =>
    obtain ⟨hOpen, hNone⟩ := h
    cases c with
    | addLineItem sig g n ok =>
      have hfr := handleAdd_frame b sig g n ok
      simp only [stepCmd]
      rw [hfr.1, hOpen]
      simp only [if_pos rfl, statusInv]
      exact ⟨hfr.1.trans hOpen, hfr.2.1.trans hNone⟩
    | close n ok =>
      simp [stepCmd, handleCloseBillSignal, statusInv]

theorem processCmds_statusInv (cmds : List Cmd) :
    ∀ s : WorkflowState, statusInv s → statusInv (processCmds s cmds) := by
  induction cmds with
  | nil => intro s h; exact h
  | cons c cs ih =>
    intro s h
    rw [processCmds_cons]
    exact ih _ (stepCmd_statusInv s c h)

/-- Field contents of any bill successfully produced by initialization. -/
theorem initBill_ok (params : BillWorkflowParams)
    (generatedID : Option String) (createdAt : Nat)
    (upsertOk queryHandlerOk : Bool) (b : Bill)
    (h : initBill params generatedID createdAt upsertOk queryHandlerOk
          = Except.ok b) :
    b.customerID = params.customerID ∧ b.currency = params.currency
    ∧ b.status = BillStatus.Open ∧ b.lineItems = [] ∧ b.totalAmount = 0
    ∧ b.createdAt = some createdAt ∧ b.closedAt = none
    ∧ (params.billID ≠ "" → b.id = params.billID)
    ∧ (params.billID = "" → generatedID = some b.id) := by
  unfold initBill at h
  by_cases hb : params.billID = "" <;>
    cases generatedID <;>
      cases upsertOk <;>
        cases queryHandlerOk <;>
          simp_all <;>
            (try obtain ⟨rfl⟩ := h) <;> simp_all

/-- Effect of a batch of `AddLineItemSignal` deliveries with supplied, fresh,
pairwise-distinct ids on an open bill whose total is consistent: the items are
appended in delivery order and the total is the recomputed sum. -/
theorem processAdds_open (xs : List AddInput) : ∀ b : Bill,
    b.status = BillStatus.Open →
    b.totalAmount = sumAmounts b.lineItems →
    (∀ x ∈ xs, x.signal.lineItemID ≠ "") →
    (∀ x ∈ xs, x.signal.lineItemID ∉ b.lineItems.map LineItem.id) →
    (xs.map (fun x => x.signal.lineItemID)).Nodup →
    processCmds (WorkflowState.running b) (xs.map addCmd)
      = WorkflowState.running
          { b with
            lineItems :=
              b.lineItems ++ xs.map (fun x => lineItemOfSignal x.signal)
            totalAmount :=
              sumAmounts
                (b.lineItems ++ xs.map (fun x => lineItemOfSignal x.signal)) } := by
  induction xs with
  | nil =>
    intro b hOpen hTot _ _ _
    simp only [List.map_nil, List.append_nil, processCmds_nil]
    cases b
    simp_all [sumAmounts]
  | cons x xs ih =>
    intro b hOpen hTot hNE hFresh hND
    have hNEx : x.signal.lineItemID ≠ "" := hNE x (List.mem_cons_self x xs)
    have hFreshx : x.signal.lineItemID ∉ b.lineItems.map LineItem.id :=
      hFresh x (List.mem_cons_self x xs)
    have hOpen' :
        ({ b with
            lineItems := b.lineItems ++ [lineItemOfSignal x.signal]
            totalAmount :=
              sumAmounts (b.lineItems ++ [lineItemOfSignal x.signal]) } :
          Bill).status = BillStatus.Open := hOpen
    have hFresh' : ∀ y ∈ xs, y.signal.lineItemID ∉
        (b.lineItems ++ [lineItemOfSignal x.signal]).map LineItem.id := by
      intro y hy
      simp only [List.map_append, List.map_cons, List.map_nil, List.mem_append,
        List.mem_singleton, lineItemOfSignal]
      rintro (hmem | hid)
      · exact hFresh y (List.mem_cons_of_mem x hy) hmem
      · have hne : y.signal.lineItemID ≠ x.signal.lineItemID := by
          intro hcontra
          exact (List.nodup_cons.mp hND).1
            (List.mem_map.mpr ⟨y, hy, hcontra⟩)
        exact hne hid
    have hstep :
        stepCmd (WorkflowState.running b) (addCmd x)
          = WorkflowState.running
              { b with
                lineItems := b.lineItems ++ [lineItemOfSignal x.signal]
                totalAmount :=
                  sumAmounts (b.lineItems ++ [lineItemOfSignal x.signal]) } := by
      simp only [stepCmd, addCmd,
        handleAdd_fresh b x.signal x.generatedID x.now x.saveOk hOpen hNEx hFreshx]
      rw [if_pos]
      exact hOpen
    rw [List.map_cons, processCmds_cons, hstep,
      ih _ hOpen' rfl
        (fun y hy => hNE y (List.mem_cons_of_mem x hy))
        hFresh'
        (List.nodup_cons.mp hND).2]
    simp [List.append_assoc]

/-- A state satisfying the loop invariant whose bill is closed is absorbing
for single steps. -/
theorem stepCmd_closed_noop (s : WorkflowState) (c : Cmd)
    (hInv : statusInv s)
    (hClosed : (billOf s).status = BillStatus.Closed) :
    stepCmd s c = s := by
  cases s with
  | running b => exact absurd (hInv.1.symm.trans hClosed) (by decide)
  | completed b => rfl

/-- A state satisfying the loop invariant whose bill is closed is absorbing
for whole command sequences. -/
theorem processCmds_closed_noop (s : WorkflowState)
    (hInv : statusInv s)
    (hClosed : (billOf s).status = BillStatus.Closed) :
    ∀ extra : List Cmd, processCmds s extra = s := by
  cases s with
  | running b =>
    exact absurd (hInv.1.symm.trans hClosed) (by decide)
  | completed b =>
    intro extra
    exact processCmds_completed b extra

/-! ## Claim theorems -/

/-- Claim C1: for every sequence of AddLineItem commands with pairwise-distinct
line item ids processed while the bill is OPEN (here: starting right after a
successful initialization), the bill's `totalAmount` afterwards equals the sum
of all submitted amounts and `lineItems` lists the submitted items in exactly
the submission order. -/
theorem addLineItem_sequence_total_and_order
    (params : BillWorkflowParams) (generatedID : Option String)
    (createdAt : Nat) (upsertOk queryHandlerOk : Bool) (b0 : Bill)
    (xs : List AddInput)
    (hInit : initBill params generatedID createdAt upsertOk queryHandlerOk
        = Except.ok b0)
    (hNE : ∀ x ∈ xs, x.signal.lineItemID ≠ "")
    (hND : (xs.map (fun x => x.signal.lineItemID)).Nodup) :
    (billOf (processCmds (WorkflowState.running b0) (xs.map addCmd))).lineItems
        = xs.map (fun x => lineItemOfSignal x.signal)
    ∧ (billOf (processCmds (WorkflowState.running b0) (xs.map addCmd))).totalAmount
        = (xs.map (fun x => x.signal.amount)).sum := by
  obtain ⟨-, -, hOpen, hItems, hTot, -, -, -, -⟩ :=
    initBill_ok params generatedID createdAt upsertOk queryHandlerOk b0 hInit
  have h := processAdds_open xs b0 hOpen (by rw [hTot, hItems]; rfl)
      hNE (by intro y _; rw [hItems]; simp) hND
  rw [h]
  constructor
  · simp [billOf, hItems]
  · simp [billOf, hItems, sumAmounts_eq_sum, List.map_map, lineItemOfSignal,
      Function.comp_def]

/-- Claim C2: an AddLineItem command whose `lineItemId` is already present
among the bill's line items is an idempotent no-op: the bill is unchanged, no
activity is issued, and (on an open bill) the loop keeps running with the same
state — nothing is surfaced to the sender. -/
theorem duplicate_lineItem_noop (bill : Bill) (sig : AddLineItemSignal)
    (g : Option String) (n : Nat) (ok : Bool)
    (hNE : sig.lineItemID ≠ "")
    (hDup : sig.lineItemID ∈ bill.lineItems.map LineItem.id) :
    handleAddLineItemSignal bill sig g n ok = (bill, [])
    ∧ (bill.status = BillStatus.Open →
        stepCmd (WorkflowState.running bill) (Cmd.addLineItem sig g n ok)
          = WorkflowState.running bill) := by
  have hAny : bill.lineItems.any (fun item => item.id = sig.lineItemID) = true := by
    rw [List.any_eq_true]
    obtain ⟨item, hmem, heq⟩ := List.mem_map.mp hDup
    exact ⟨item, hmem, by simp [heq]⟩
  have h1 : handleAddLineItemSignal bill sig g n ok = (bill, []) := by
    unfold handleAddLineItemSignal
    by_cases hs : bill.status ≠ BillStatus.Open
    · simp [hs]
    · simp [hs, hNE, hAny]
  refine ⟨h1, fun hOpen => ?_⟩
  simp [stepCmd, h1, hOpen]

/-- Claim C3: HandleClose on an OPEN bill with a failing
`UpdateBillOnCloseActivity` (`updateOk = false`) still transitions the bill to
CLOSED with `totalAmount` equal to the sum of all line item amounts and
`closedAt` set; the loop exits normally and the workflow's return carries no
error. -/
theorem close_persistence_failure_still_closes (bill : Bill) (now : Nat)
    (hOpen : bill.status = BillStatus.Open) :
    ((handleCloseBillSignal bill now false).1.status = BillStatus.Closed
      ∧ (handleCloseBillSignal bill now false).1.closedAt = some now
      ∧ (handleCloseBillSignal bill now false).1.totalAmount
          = (bill.lineItems.map LineItem.amount).sum)
    ∧ stepCmd (WorkflowState.running bill) (Cmd.close now false)
        = WorkflowState.completed (handleCloseBillSignal bill now false).1
    ∧ (workflowReturn
        (stepCmd (WorkflowState.running bill) (Cmd.close now false))).2 = none := by
  refine ⟨⟨rfl, rfl, ?_⟩, ?_, rfl⟩
  · simpa [handleCloseBillSignal] using sumAmounts_eq_sum bill.lineItems
  · simp [stepCmd, handleCloseBillSignal]

/-- Claim C4: if the initial `UpsertBillActivity` fails, the failure is fatal:
initialization returns the error to the creator, and the whole workflow run
returns that error whatever commands were delivered — the actor never becomes
command-ready.  The hypothesis only asks that the bill id resolves (it was
caller-supplied, or it was generated successfully), i.e. that execution
reaches the upsert call at all. -/
theorem initial_upsert_failure_fatal (params : BillWorkflowParams)
    (generatedID : Option String) (createdAt : Nat) (queryHandlerOk : Bool)
    (hID : params.billID ≠ "" ∨ generatedID ≠ none) :
    initBill params generatedID createdAt false queryHandlerOk
        = Except.error "UpsertBillActivity failed"
    ∧ ∀ cmds : List Cmd,
        runBillWorkflow params generatedID createdAt false queryHandlerOk cmds
          = Except.error "UpsertBillActivity failed" := by
  have h1 : initBill params generatedID createdAt false queryHandlerOk
      = Except.error "UpsertBillActivity failed" := by
    unfold initBill
    by_cases hb : params.billID = ""
    · cases generatedID with
      | none =>
        rcases hID with hg | hg
        · exact absurd hb hg
        · exact absurd rfl hg
      | some g => simp [hb]
    · simp [hb]
  exact ⟨h1, fun cmds => by simp [runBillWorkflow, h1]⟩

/-- Claim C5: from any successfully initialized bill, after any sequence of
commands the status only ever goes OPEN to CLOSED and never reverts (once
CLOSED it stays CLOSED under any further commands), and at every observable
point `closedAt` is non-null exactly when the status is CLOSED. -/
theorem status_monotone_closedAt_iff (params : BillWorkflowParams)
    (generatedID : Option String) (createdAt : Nat)
    (upsertOk queryHandlerOk : Bool) (b0 : Bill)
    (hInit : initBill params generatedID createdAt upsertOk queryHandlerOk
        = Except.ok b0) :
    ∀ cmds : List Cmd,
      ((billOf (processCmds (WorkflowState.running b0) cmds)).closedAt ≠ none
          ↔ (billOf (processCmds (WorkflowState.running b0) cmds)).status
              = BillStatus.Closed)
      ∧ ∀ extra : List Cmd,
          (billOf (processCmds (WorkflowState.running b0) cmds)).status
              = BillStatus.Closed →
          (billOf (processCmds (WorkflowState.running b0) (cmds ++ extra))).status
              = BillStatus.Closed := by
  have hInv0 : statusInv (WorkflowState.running b0) := by
    obtain ⟨-, -, hOpen, -, -, -, hca, -, -⟩ :=
      initBill_ok params generatedID createdAt upsertOk queryHandlerOk b0 hInit
    exact ⟨hOpen, hca⟩
  intro cmds
  have hInv := processCmds_statusInv cmds _ hInv0
  constructor
  · cases hS : processCmds (WorkflowState.running b0) cmds with
    | running b =>
      rw [hS] at hInv
      obtain ⟨h1, h2⟩ := hInv
      simp [billOf, h1, h2]
    | completed b =>
      rw [hS] at hInv
      obtain ⟨h1, h2⟩ := hInv
      simp [billOf, h1, Option.isSome_iff_ne_none.mp h2]
  · intro extra hClosed
    rw [processCmds_append, processCmds_closed_noop _ hInv hClosed]
    exact hClosed

/-- Claim C6: an AddLineItem command received when the bill is not OPEN
changes nothing at all — the handler returns the bill untouched, issues no
activity, signals no error, and a completed workflow processes nothing. -/
theorem addLineItem_after_close_noop (bill : Bill) (sig : AddLineItemSignal)
    (g : Option String) (n : Nat) (ok : Bool)
    (hNotOpen : bill.status ≠ BillStatus.Open) :
    handleAddLineItemSignal bill sig g n ok = (bill, [])
    ∧ stepCmd (WorkflowState.completed bill) (Cmd.addLineItem sig g n ok)
        = WorkflowState.completed bill := by
  constructor
  · unfold handleAddLineItemSignal
    simp [hNotOpen]
  · rfl

/-- Claim C7: Close is idempotent: in any state reachable from a successful
initialization whose bill is already CLOSED, a further Close command leaves
the entire workflow state — and so `closedAt`, `totalAmount`, `status` and
`lineItems` — unchanged. -/
theorem close_idempotent (params : BillWorkflowParams)
    (generatedID : Option String) (createdAt : Nat)
    (upsertOk queryHandlerOk : Bool) (b0 : Bill)
    (hInit : initBill params generatedID createdAt upsertOk queryHandlerOk
        = Except.ok b0)
    (cmds : List Cmd) (now : Nat) (updateOk : Bool)
    (hClosed : (billOf (processCmds (WorkflowState.running b0) cmds)).status
        = BillStatus.Closed) :
    stepCmd (processCmds (WorkflowState.running b0) cmds) (Cmd.close now updateOk)
      = processCmds (WorkflowState.running b0) cmds := by
  have hInv0 : statusInv (WorkflowState.running b0) := by
    obtain ⟨-, -, hOpen, -, -, -, hca, -, -⟩ :=
      initBill_ok params generatedID createdAt upsertOk queryHandlerOk b0 hInit
    exact ⟨hOpen, hca⟩
  have hInv := processCmds_statusInv cmds _ hInv0
  exact stepCmd_closed_noop _ _ hInv hClosed

/-- Claim C8: the GetBillDetails query returns a value copy of the current
bill with a nil error and performs no mutation: the state after answering a
query is exactly the state before it, and processing any further commands
from that state is the same as if the query had never happened (so an earlier
snapshot, being a value, is unaffected by later commands). -/
theorem getBillDetails_pure_snapshot (s : WorkflowState) (cmds : List Cmd) :
    (processQuery s).2 = s
    ∧ (processQuery s).1 = (billOf s, none)
    ∧ processCmds (processQuery s).2 cmds = processCmds s cmds :=
  ⟨rfl, rfl, rfl⟩

/-- Claim C9: immediately after a successful initialization the bill has the
caller-supplied id (or the generated one when the parameter id was absent),
the given customer id and currency, status OPEN, empty line items, total 0,
`createdAt` set to the current logical time, and `closedAt` unset. -/
theorem initBill_success_fields (params : BillWorkflowParams)
    (generatedID : Option String) (createdAt : Nat)
    (upsertOk queryHandlerOk : Bool) (b : Bill)
    (h : initBill params generatedID createdAt upsertOk queryHandlerOk
        = Except.ok b) :
    b.customerID = params.customerID ∧ b.currency = params.currency
    ∧ b.status = BillStatus.Open ∧ b.lineItems = [] ∧ b.totalAmount = 0
    ∧ b.createdAt = some createdAt ∧ b.closedAt = none
    ∧ (params.billID ≠ "" → b.id = params.billID)
    ∧ (params.billID = "" → generatedID = some b.id) :=
  initBill_ok params generatedID createdAt upsertOk queryHandlerOk b h

/-- Claim C10: when an AddLineItem command carries no `lineItemId` and the
recorded-effect id generation fails (`generatedID = none`), the command is
silently dropped atomically: the bill is unchanged, no `SaveLineItemActivity`
is issued, and the loop keeps running — no error reaches the sender and the
actor does not terminate. -/
theorem generateID_failure_drops_command (bill : Bill) (sig : AddLineItemSignal)
    (n : Nat) (ok : Bool)
    (hOpen : bill.status = BillStatus.Open)
    (hEmpty : sig.lineItemID = "") :
    handleAddLineItemSignal bill sig none n ok = (bill, [])
    ∧ stepCmd (WorkflowState.running bill) (Cmd.addLineItem sig none n ok)
        = WorkflowState.running bill := by
  have h1 : handleAddLineItemSignal bill sig none n ok = (bill, []) := by
    unfold handleAddLineItemSignal
    simp [hOpen, hEmpty]
  exact ⟨h1, by simp [stepCmd, h1, hOpen]⟩

/-! ## Concrete sample values for the witnesses -/

/-- Sample start parameters with a caller-supplied bill id. -/
def sampleParams : BillWorkflowParams :=
  { billID := "B1", customerID := "C1", currency := "USD" }

/-- The bill produced by a successful initialization from `sampleParams` at
logical time 0. -/
def sampleBill : Bill :=
  { id := "B1", customerID := "C1", currency := "USD"
    status := BillStatus.Open, lineItems := [], totalAmount := 0
    createdAt := some 0, closedAt := none }

/-- A sample bill that already carries one line item. -/
def sampleBillWithItem : Bill :=
  { sampleBill with
      lineItems := [{ id := "L1", description := "Item1", amount := 3 }]
      totalAmount := 3 }

/-- A sample bill that is already closed. -/
def sampleClosedBill : Bill :=
  { sampleBill with status := BillStatus.Closed, closedAt := some 9 }

/-- Two AddLineItem deliveries with distinct supplied ids. -/
def sampleAdds : List AddInput :=
  [ { signal := { lineItemID := "L1", description := "Item1", amount := 3 }
      generatedID := none, now := 1, saveOk := true },
    { signal := { lineItemID := "L2", description := "Item2", amount := 4 }
      generatedID := none, now := 2, saveOk := true } ]

/-! ## Witnesses -/

/-- Concrete instantiation of claim C1 at two submitted line items. -/
theorem addLineItem_sequence_total_and_order_witness :
    (initBill sampleParams none 0 true true = Except.ok sampleBill
      ∧ (∀ x ∈ sampleAdds, x.signal.lineItemID ≠ "")
      ∧ (sampleAdds.map (fun x => x.signal.lineItemID)).Nodup)
    ∧ ((billOf (processCmds (WorkflowState.running sampleBill)
            (sampleAdds.map addCmd))).lineItems
          = sampleAdds.map (fun x => lineItemOfSignal x.signal)
      ∧ (billOf (processCmds (WorkflowState.running sampleBill)
            (sampleAdds.map addCmd))).totalAmount
          = (sampleAdds.map (fun x => x.signal.amount)).sum) :=
  ⟨⟨rfl, by decide, by decide⟩,
   addLineItem_sequence_total_and_order sampleParams none 0 true true sampleBill
     sampleAdds rfl (by decide) (by decide)⟩

/-- Concrete instantiation of claim C2: re-adding id L1. -/
theorem duplicate_lineItem_noop_witness :
    (("L1" : String) ≠ ""
      ∧ ("L1" : String) ∈ sampleBillWithItem.lineItems.map LineItem.id)
    ∧ (handleAddLineItemSignal sampleBillWithItem
          { lineItemID := "L1", description := "dup", amount := 5 } none 3 true
        = (sampleBillWithItem, [])
      ∧ (sampleBillWithItem.status = BillStatus.Open →
          stepCmd (WorkflowState.running sampleBillWithItem)
              (Cmd.addLineItem
                { lineItemID := "L1", description := "dup", amount := 5 }
                none 3 true)
            = WorkflowState.running sampleBillWithItem)) :=
  ⟨⟨by decide, by decide⟩,
   duplicate_lineItem_noop sampleBillWithItem
     { lineItemID := "L1", description := "dup", amount := 5 } none 3 true
     (by decide) (by decide)⟩

/-- Concrete instantiation of claim C3: closing with a failing finalize. -/
theorem close_persistence_failure_still_closes_witness :
    (sampleBillWithItem.status = BillStatus.Open)
    ∧ (((handleCloseBillSignal sampleBillWithItem 5 false).1.status
          = BillStatus.Closed
        ∧ (handleCloseBillSignal sampleBillWithItem 5 false).1.closedAt = some 5
        ∧ (handleCloseBillSignal sampleBillWithItem 5 false).1.totalAmount
            = (sampleBillWithItem.lineItems.map LineItem.amount).sum)
      ∧ stepCmd (WorkflowState.running sampleBillWithItem) (Cmd.close 5 false)
          = WorkflowState.completed
              (handleCloseBillSignal sampleBillWithItem 5 false).1
      ∧ (workflowReturn
          (stepCmd (WorkflowState.running sampleBillWithItem)
            (Cmd.close 5 false))).2 = none) :=
  ⟨rfl, close_persistence_failure_still_closes sampleBillWithItem 5 rfl⟩

/-- Concrete instantiation of claim C4: failing initial upsert in the
absent-id mode, where the bill id was generated. -/
theorem initial_upsert_failure_fatal_witness :
    (({ billID := "", customerID := "C1", currency := "USD" } :
        BillWorkflowParams).billID ≠ "" ∨ (some "G1" : Option String) ≠ none)
    ∧ (initBill { billID := "", customerID := "C1", currency := "USD" }
          (some "G1") 0 false true
        = Except.error "UpsertBillActivity failed"
      ∧ runBillWorkflow { billID := "", customerID := "C1", currency := "USD" }
          (some "G1") 0 false true [Cmd.close 1 true]
          = Except.error "UpsertBillActivity failed") :=
  ⟨Or.inr (Option.some_ne_none "G1"),
   (initial_upsert_failure_fatal
     { billID := "", customerID := "C1", currency := "USD" } (some "G1") 0 true
     (Or.inr (Option.some_ne_none "G1"))).1,
   (initial_upsert_failure_fatal
     { billID := "", customerID := "C1", currency := "USD" } (some "G1") 0 true
     (Or.inr (Option.some_ne_none "G1"))).2 [Cmd.close 1 true]⟩

/-- Concrete instantiation of claim C5 after one Close command. -/
theorem status_monotone_closedAt_iff_witness :
    (initBill sampleParams none 0 true true = Except.ok sampleBill)
    ∧ ((billOf (processCmds (WorkflowState.running sampleBill)
            [Cmd.close 1 true])).closedAt ≠ none
        ↔ (billOf (processCmds (WorkflowState.running sampleBill)
            [Cmd.close 1 true])).status = BillStatus.Closed)
    ∧ (billOf (processCmds (WorkflowState.running sampleBill)
          ([Cmd.close 1 true] ++ [Cmd.close 2 true]))).status
        = BillStatus.Closed :=
  ⟨rfl,
   (status_monotone_closedAt_iff sampleParams none 0 true true sampleBill rfl
     [Cmd.close 1 true]).1,
   (status_monotone_closedAt_iff sampleParams none 0 true true sampleBill rfl
     [Cmd.close 1 true]).2 [Cmd.close 2 true] (by decide)⟩

/-- Concrete instantiation of claim C6 on a closed bill. -/
theorem addLineItem_after_close_noop_witness :
    (sampleClosedBill.status ≠ BillStatus.Open)
    ∧ (handleAddLineItemSignal sampleClosedBill
          { lineItemID := "L9", description := "late", amount := 7 } none 4 true
        = (sampleClosedBill, [])
      ∧ stepCmd (WorkflowState.completed sampleClosedBill)
            (Cmd.addLineItem
              { lineItemID := "L9", description := "late", amount := 7 }
              none 4 true)
          = WorkflowState.completed sampleClosedBill) :=
  ⟨by decide,
   addLineItem_after_close_noop sampleClosedBill
     { lineItemID := "L9", description := "late", amount := 7 } none 4 true
     (by decide)⟩

/-- Concrete instantiation of claim C7: a second Close after closing. -/
theorem close_idempotent_witness :
    (initBill sampleParams none 0 true true = Except.ok sampleBill
      ∧ (billOf (processCmds (WorkflowState.running sampleBill)
            [Cmd.close 1 true])).status = BillStatus.Closed)
    ∧ stepCmd (processCmds (WorkflowState.running sampleBill) [Cmd.close 1 true])
          (Cmd.close 2 true)
        = processCmds (WorkflowState.running sampleBill) [Cmd.close 1 true] :=
  ⟨⟨rfl, by decide⟩,
   close_idempotent sampleParams none 0 true true sampleBill rfl
     [Cmd.close 1 true] 2 true (by decide)⟩

/-- Concrete instantiation of claim C9 at `sampleParams`. -/
theorem initBill_success_fields_witness :
    (initBill sampleParams none 0 true true = Except.ok sampleBill)
    ∧ (sampleBill.customerID = sampleParams.customerID
      ∧ sampleBill.currency = sampleParams.currency
      ∧ sampleBill.status = BillStatus.Open ∧ sampleBill.lineItems = []
      ∧ sampleBill.totalAmount = 0 ∧ sampleBill.createdAt = some 0
      ∧ sampleBill.closedAt = none
      ∧ (sampleParams.billID ≠ "" → sampleBill.id = sampleParams.billID)
      ∧ (sampleParams.billID = "" → (none : Option String) = some sampleBill.id)) :=
  ⟨rfl, initBill_success_fields sampleParams none 0 true true sampleBill rfl⟩

/-- Concrete instantiation of claim C10: absent id and failed generation. -/
theorem generateID_failure_drops_command_witness :
    (sampleBill.status = BillStatus.Open
      ∧ ({ lineItemID := "", description := "gen", amount := 2 } :
          AddLineItemSignal).lineItemID = "")
    ∧ (handleAddLineItemSignal sampleBill
          { lineItemID := "", description := "gen", amount := 2 } none 6 true
        = (sampleBill, [])
      ∧ stepCmd (WorkflowState.running sampleBill)
            (Cmd.addLineItem
              { lineItemID := "", description := "gen", amount := 2 }
              none 6 true)
          = WorkflowState.running sampleBill) :=
  ⟨⟨rfl, rfl⟩,
   generateID_failure_drops_command sampleBill
     { lineItemID := "", description := "gen", amount := 2 } 6 true rfl rfl⟩

end Fees
